import Mathlib

/-!
Shallow embedding of `src/message.py` (RFC 5389 STUN message decoding, with
RFC 5766 TURN and RFC 5780 NAT-discovery attribute extensions).

Byte buffers are modelled as `List Nat` (each entry one byte of a Python 2
`str`).  Fallible operations return `Except PyErr`, mirroring the Python
exceptions that can escape the decoder (`struct.error`, `AssertionError`,
`IndexError`, `NameError`, `UnicodeDecodeError`, `ValueError`).
-/

/-- Kinds of Python exceptions the decoder can raise. -/
inductive PyErr where
  | assertionError
  | structError
  | indexError
  | nameError
  | unicodeDecodeError
  | valueError
deriving DecidableEq, Repr

-- Attribute type-code constants from message.py (RFC 5389).
def ATTRIBUTE_MAPPED_ADDRESS : Nat := 0x0001
def ATTRIBUTE_USERNAME : Nat := 0x0006
def ATTRIBUTE_MESSAGE_INTEGRITY : Nat := 0x0008
def ATTRIBUTE_ERROR_CODE : Nat := 0x0009
def ATTRIBUTE_UNKNOWN_ATTRIBUTES : Nat := 0x000A
def ATTRIBUTE_REALM : Nat := 0x0014
def ATTRIBUTE_NONCE : Nat := 0x0015
def ATTRIBUTE_XOR_MAPPED_ADDRESS : Nat := 0x0020
def ATTRIBUTE_SOFTWARE : Nat := 0x8022
def ATTRIBUTE_ALTERNATE_SERVER : Nat := 0x8023
def ATTRIBUTE_FINGERPRINT : Nat := 0x8028

def FORMAT_STUN : Nat := 0b00

def MAGIC_COOKIE : Nat := 0x2112A442

def METHOD_BINDING : Nat := 0x001

def CLASS_REQUEST : Nat := 0x00
def CLASS_INDICATION : Nat := 0x01
def CLASS_RESPONSE_SUCCESS : Nat := 0x10
def CLASS_RESPONSE_ERROR : Nat := 0x11

-- RFC 5766 TURN attribute type codes.
def ATTRIBUTE_CHANNEL_NUMBER : Nat := 0x000C
def ATTRIBUTE_LIFETIME : Nat := 0x000D
def ATTRIBUTE_XOR_PEER_ADDRESS : Nat := 0x0012
def ATTRIBUTE_DATA : Nat := 0x0013
def ATTRIBUTE_XOR_RELAYED_ADDRESS : Nat := 0x0016
def ATTRIBUTE_EVEN_PORT : Nat := 0x0018
def ATTRIBUTE_REQUESTED_TRANSPORT : Nat := 0x0019
def ATTRIBUTE_DONT_FRAGMENT : Nat := 0x001A
def ATTRIBUTE_RESERVATION_TOKEN : Nat := 0x0022

-- RFC 5780 NAT behavior discovery attribute type codes.
def ATTRIBUTE_CHANGE_REQUEST : Nat := 0x0003
def ATTRIBUTE_PADDING : Nat := 0x0026
def ATTRIBUTE_RESPONSE_PORT : Nat := 0x0027
def ATTRIBUTE_RESPONSE_ORIGIN : Nat := 0x802b
def ATTRIBUTE_OTHER_ADDRESS : Nat := 0x802c

def FAMILY_IPv4 : Nat := 0x01
def FAMILY_IPv6 : Nat := 0x02

/-- Big-endian 16-bit read at index `i` (as done by `struct` format `H`). -/
def u16 (data : List Nat) (i : Nat) : Nat :=
  data.getD i 0 * 256 + data.getD (i + 1) 0

/-- Big-endian 32-bit read at index `i` (as done by `struct` format `L`). -/
def u32 (data : List Nat) (i : Nat) : Nat :=
  u16 data i * 65536 + u16 data (i + 2)

/-- Python `buffer(data, off, n)` for a nonnegative size `n`: a clamped slice. -/
def pySliceN (data : List Nat) (off n : Nat) : List Nat :=
  (data.drop off).take n

/-- Python 2 `buffer(data, off, size)` with a possibly negative `size`:
`-1` means "to the end of the buffer", any other negative size raises
`ValueError`, and a nonnegative size gives a clamped slice. -/
def pyBufferI (data : List Nat) (off : Nat) (size : Int) : Except PyErr (List Nat) :=
  if size = -1 then Except.ok (data.drop off)
  else if size < 0 then Except.error PyErr.valueError
  else Except.ok (pySliceN data off size.toNat)

/-- `struct.unpack_from` over format `>2H` at `off`: two big-endian 16-bit
fields; raises `struct.error` when fewer than 4 bytes remain. -/
def unpack2H (data : List Nat) (off : Nat) : Except PyErr (Nat × Nat) :=
  if off + 4 ≤ data.length then Except.ok (u16 data off, u16 data (off + 2))
  else Except.error PyErr.structError

/-- `struct.unpack_from` over format `>xBH` at `off`: one pad byte, a byte
and a big-endian 16-bit field; raises `struct.error` below 4 bytes. -/
def unpackXBH (data : List Nat) (off : Nat) : Except PyErr (Nat × Nat) :=
  if off + 4 ≤ data.length then Except.ok (data.getD (off + 1) 0, u16 data (off + 2))
  else Except.error PyErr.structError

/-- `struct.unpack_from` over format `>2x2B` at `off`: two pad bytes then two
single bytes; raises `struct.error` below 4 bytes. -/
def unpack2x2B (data : List Nat) (off : Nat) : Except PyErr (Nat × Nat) :=
  if off + 4 ≤ data.length then Except.ok (data.getD (off + 2) 0, data.getD (off + 3) 0)
  else Except.error PyErr.structError

/-- `struct.unpack_from` over format `>16s` at `off`: 16 raw bytes. -/
def unpack16s (data : List Nat) (off : Nat) : Except PyErr (List Nat) :=
  if off + 16 ≤ data.length then Except.ok (pySliceN data off 16)
  else Except.error PyErr.structError

/-- `struct.unpack_from` over format `>2HL12s` at offset 0, the STUN header
layout: msg-type, msg-length, magic cookie, 12-byte transaction id. -/
def unpackHeader (data : List Nat) : Except PyErr (Nat × Nat × Nat × List Nat) :=
  if 20 ≤ data.length then
    Except.ok (u16 data 0, u16 data 2, u32 data 4, pySliceN data 8 12)
  else Except.error PyErr.structError

/-- Is `b` a UTF-8 continuation byte (`0x80..0xBF`)? -/
def isCont (b : Nat) : Bool := 0x80 ≤ b && b ≤ 0xBF

/-- UTF-8 validity of a byte sequence (RFC 3629 table), modelling whether
Python `str.decode` with codec `UTF-8` succeeds. -/
def utf8Valid : List Nat → Bool
  | [] => true
  | b :: rest =>
    if b ≤ 0x7F then utf8Valid rest
    else if 0xC2 ≤ b && b ≤ 0xDF then
      match rest with
      | c1 :: r => isCont c1 && utf8Valid r
      | [] => false
    else if 0xE0 ≤ b && b ≤ 0xEF then
      match rest with
      | c1 :: c2 :: r =>
        (if b = 0xE0 then 0xA0 ≤ c1 && c1 ≤ 0xBF
         else if b = 0xED then 0x80 ≤ c1 && c1 ≤ 0x9F
         else isCont c1) && isCont c2 && utf8Valid r
      | _ => false
    else if 0xF0 ≤ b && b ≤ 0xF4 then
      match rest with
      | c1 :: c2 :: c3 :: r =>
        (if b = 0xF0 then 0x90 ≤ c1 && c1 ≤ 0xBF
         else if b = 0xF4 then 0x80 ≤ c1 && c1 ≤ 0x8F
         else isCont c1) && isCont c2 && isCont c3 && utf8Valid r
      | _ => false
    else false

/-- Python `str.decode` with codec `UTF-8`: the decoded text, represented by
its byte sequence, or a `UnicodeDecodeError`. -/
def pyDecodeUTF8 (bs : List Nat) : Except PyErr (List Nat) :=
  if utf8Valid bs then Except.ok bs else Except.error PyErr.unicodeDecodeError

/-- The attribute classes of message.py registered via the `stunattribute`
decorator, plus the fallback class `UnknownAttribute`. -/
inductive Factory where
  | unknownAttribute
  | mappedAddress
  | xorMappedAddress
  | username
  | messageIntegrity
  | fingerprint
  | errorCode
  | realm
  | nonce
  | unknownAttributes
  | software
  | alternateServer
  | channelNumber
  | lifetime
  | xorPeerAddress
  | dataAttribute
  | xorRelayedAddress
  | evenPort
  | requestedTransport
  | changeRequest
  | responseOrigin
  | otherAddress
  | responsePort
  | paddingAttribute
deriving DecidableEq, Repr

/-- Decoded attribute payloads: one shape per codec return value. -/
inductive AttrValue where
  | raw (bytes : List Nat)
  | addr (family port : Nat) (address : List Nat)
  | text (bytes : List Nat)
  | errorCodeValue (errClass errNumber : Nat) (reason : List Nat)
  | u16seq (vals : List Nat)
  | channelNumberValue (n : Nat)
  | evenPortValue (flag : Nat)
  | requestedTransportValue (protocol : Nat)
  | changeRequestValue (changeIp changePort : Nat)
  | responsePortValue (port : Nat)
deriving DecidableEq, Repr

/-- Default `StunMessageAttribute.decode`: `buffer(data, offset, length)`,
the raw clamped value slice. -/
def stunAttributeDecode (data : List Nat) (offset length : Nat) :
    Except PyErr AttrValue :=
  Except.ok (AttrValue.raw (pySliceN data offset length))

/-- `MappedAddress.decode`: value header `>xBH` (family, port), then
`buffer(data, offset + 4, length - 4)` as the address bytes (the size is a
Python int, so `length < 4` goes through the negative-size `buffer` rules). -/
def mappedAddressDecode (data : List Nat) (offset length : Nat) :
    Except PyErr AttrValue := do
  let fp ← unpackXBH data offset
  let address ← pyBufferI data (offset + 4) ((length : Int) - 4)
  Except.ok (AttrValue.addr fp.1 fp.2 address)

/-- `XorMappedAddress.decode`: value header `>xBH` (family, xor-port); the
xor-address slice is 4 bytes for IPv4, 16 for IPv6, and left unbound for any
other family (Python `NameError` when it is used); `magic` is the 16 raw
bytes at buffer offset 4; port and address are de-obfuscated by XOR. -/
def xorAddressDecode (data : List Nat) (offset length : Nat) :
    Except PyErr AttrValue := do
  let fp ← unpackXBH data offset
  let family := fp.1
  let xport := fp.2
  let xaddress : Option (List Nat) :=
    if family = FAMILY_IPv4 then some (pySliceN data (offset + 4) 4)
    else if family = FAMILY_IPv6 then some (pySliceN data (offset + 4) 16)
    else none
  let magic ← unpack16s data 4
  let port := xport ^^^ (magic.getD 0 0 <<< 8) ^^^ magic.getD 1 0
  match xaddress with
  | some xa =>
      Except.ok (AttrValue.addr family port (List.zipWith (fun a b => a ^^^ b) xa magic))
  | none => Except.error PyErr.nameError

/-- `Username.decode` / `Realm.decode` / `Software.decode`: UTF-8 decode of
the value slice. -/
def textDecode (data : List Nat) (offset length : Nat) : Except PyErr AttrValue := do
  let s ← pyDecodeUTF8 (pySliceN data offset length)
  Except.ok (AttrValue.text s)

/-- `ErrorCode.decode`: value header `>2x2B`, class masked to its low 3
bits, and the reason decoded from `buffer(data, offset, length)` — the slice
starts at the beginning of the value, not after the 4-byte prefix. -/
def errorCodeDecode (data : List Nat) (offset length : Nat) :
    Except PyErr AttrValue := do
  let cn ← unpack2x2B data offset
  let errClass := cn.1 &&& 0b111
  let errReason ← pyDecodeUTF8 (pySliceN data offset length)
  Except.ok (AttrValue.errorCodeValue errClass cn.2 errReason)

/-- `UnknownAttributes.decode`: format `>the {length/2}H`, a sequence of
16-bit type codes (floor division, as in Python 2 `length / 2`). -/
def unknownAttributesDecode (data : List Nat) (offset length : Nat) :
    Except PyErr AttrValue :=
  let n := length / 2
  if offset + 2 * n ≤ data.length then
    Except.ok (AttrValue.u16seq ((List.range n).map (fun i => u16 data (offset + 2 * i))))
  else Except.error PyErr.structError

/-- `ChannelNumber.decode`: format `>H2x`. -/
def channelNumberDecode (data : List Nat) (offset _length : Nat) :
    Except PyErr AttrValue :=
  if offset + 4 ≤ data.length then
    Except.ok (AttrValue.channelNumberValue (u16 data offset))
  else Except.error PyErr.structError

/-- `EvenPort.decode`: format `>B`, masked with `0b10000000`. -/
def evenPortDecode (data : List Nat) (offset _length : Nat) :
    Except PyErr AttrValue :=
  if offset + 1 ≤ data.length then
    Except.ok (AttrValue.evenPortValue (data.getD offset 0 &&& 0b10000000))
  else Except.error PyErr.structError

/-- `RequestedTransport.decode`: format `>B3x`. -/
def requestedTransportDecode (data : List Nat) (offset _length : Nat) :
    Except PyErr AttrValue :=
  if offset + 4 ≤ data.length then
    Except.ok (AttrValue.requestedTransportValue (data.getD offset 0))
  else Except.error PyErr.structError

/-- `ChangeRequest.decode`: format `>L`, flag bits `0b0100` and `0b0010`. -/
def changeRequestDecode (data : List Nat) (offset _length : Nat) :
    Except PyErr AttrValue :=
  if offset + 4 ≤ data.length then
    Except.ok (AttrValue.changeRequestValue (u32 data offset &&& 0b0100)
      (u32 data offset &&& 0b0010))
  else Except.error PyErr.structError

/-- `ResponsePort.decode`: format `>H2x`. -/
def responsePortDecode (data : List Nat) (offset _length : Nat) :
    Except PyErr AttrValue :=
  if offset + 4 ≤ data.length then
    Except.ok (AttrValue.responsePortValue (u16 data offset))
  else Except.error PyErr.structError

/-- Dispatch of `factory.decode(data, offset, length)` over the attribute
classes: classes without their own `decode` inherit the default raw-slice
decode; `AlternateServer`, `ResponseOrigin` and `OtherAddress` inherit
`MappedAddress.decode`; `XorPeerAddress` and `XorRelayedAddress` inherit
`XorMappedAddress.decode`. -/
def Factory.decode : Factory → List Nat → Nat → Nat → Except PyErr AttrValue
  | .unknownAttribute, d, o, l => stunAttributeDecode d o l
  | .mappedAddress, d, o, l => mappedAddressDecode d o l
  | .xorMappedAddress, d, o, l => xorAddressDecode d o l
  | .username, d, o, l => textDecode d o l
  | .messageIntegrity, d, o, l => stunAttributeDecode d o l
  | .fingerprint, d, o, l => stunAttributeDecode d o l
  | .errorCode, d, o, l => errorCodeDecode d o l
  | .realm, d, o, l => textDecode d o l
  | .nonce, d, o, l => stunAttributeDecode d o l
  | .unknownAttributes, d, o, l => unknownAttributesDecode d o l
  | .software, d, o, l => textDecode d o l
  | .alternateServer, d, o, l => mappedAddressDecode d o l
  | .channelNumber, d, o, l => channelNumberDecode d o l
  | .lifetime, d, o, l => stunAttributeDecode d o l
  | .xorPeerAddress, d, o, l => xorAddressDecode d o l
  | .dataAttribute, d, o, l => stunAttributeDecode d o l
  | .xorRelayedAddress, d, o, l => xorAddressDecode d o l
  | .evenPort, d, o, l => evenPortDecode d o l
  | .requestedTransport, d, o, l => requestedTransportDecode d o l
  | .changeRequest, d, o, l => changeRequestDecode d o l
  | .responseOrigin, d, o, l => mappedAddressDecode d o l
  | .otherAddress, d, o, l => mappedAddressDecode d o l
  | .responsePort, d, o, l => responsePortDecode d o l
  | .paddingAttribute, d, o, l => stunAttributeDecode d o l

/-- The attribute-factory registry `StunMessage._ATTRIBUTE_FACTORIES`,
modelled as an association list from 16-bit type code to factory. -/
abbrev Registry := List (Nat × Factory)

/-- Python dict lookup `reg.get(t)` on the association-list registry. -/
def lookupFactory : Registry → Nat → Option Factory
  | [], _ => none
  | (k, f) :: rest, t => if k = t then some f else lookupFactory rest t

/-- `StunMessage.add_attribute_factory`: asserts the type code is not yet
bound (factories are classes, hence truthy), then binds it. -/
def add_attribute_factory (reg : Registry) (attr_type : Nat) (factory : Factory) :
    Except PyErr Registry :=
  if (lookupFactory reg attr_type).isSome then Except.error PyErr.assertionError
  else Except.ok (reg ++ [(attr_type, factory)])

/-- Registry keys are bound at most once. -/
def registryWF (reg : Registry) : Prop := (reg.map Prod.fst).Nodup

/-- The registry state after importing message.py: each `stunattribute`
decorator call, in source order. -/
def initialRegistry : Registry :=
  [(ATTRIBUTE_MAPPED_ADDRESS, Factory.mappedAddress),
   (ATTRIBUTE_XOR_MAPPED_ADDRESS, Factory.xorMappedAddress),
   (ATTRIBUTE_USERNAME, Factory.username),
   (ATTRIBUTE_MESSAGE_INTEGRITY, Factory.messageIntegrity),
   (ATTRIBUTE_FINGERPRINT, Factory.fingerprint),
   (ATTRIBUTE_ERROR_CODE, Factory.errorCode),
   (ATTRIBUTE_REALM, Factory.realm),
   (ATTRIBUTE_NONCE, Factory.nonce),
   (ATTRIBUTE_UNKNOWN_ATTRIBUTES, Factory.unknownAttributes),
   (ATTRIBUTE_SOFTWARE, Factory.software),
   (ATTRIBUTE_ALTERNATE_SERVER, Factory.alternateServer),
   (ATTRIBUTE_CHANNEL_NUMBER, Factory.channelNumber),
   (ATTRIBUTE_LIFETIME, Factory.lifetime),
   (ATTRIBUTE_XOR_PEER_ADDRESS, Factory.xorPeerAddress),
   (ATTRIBUTE_DATA, Factory.dataAttribute),
   (ATTRIBUTE_XOR_RELAYED_ADDRESS, Factory.xorRelayedAddress),
   (ATTRIBUTE_EVEN_PORT, Factory.evenPort),
   (ATTRIBUTE_REQUESTED_TRANSPORT, Factory.requestedTransport),
   (ATTRIBUTE_CHANGE_REQUEST, Factory.changeRequest),
   (ATTRIBUTE_RESPONSE_ORIGIN, Factory.responseOrigin),
   (ATTRIBUTE_OTHER_ADDRESS, Factory.otherAddress),
   (ATTRIBUTE_RESPONSE_PORT, Factory.responsePort),
   (ATTRIBUTE_PADDING, Factory.paddingAttribute)]

/-- One decoded attribute: `factory(attr_type, attr_length, attr_value)`. -/
structure StunAttr where
  type : Nat
  length : Nat
  factory : Factory
  value : AttrValue
deriving DecidableEq, Repr

/-- Size of the attribute TLV header (`>2H`). -/
def ATTR_HEADER_SIZE : Nat := 4

/-- Size of the message header (`>2HL12s`). -/
def MSG_HEADER_SIZE : Nat := 20

/-- The registry-resolution-and-decode step of one loop iteration:
`cls._ATTRIBUTE_FACTORIES.get(attr_type, UnknownAttribute)` followed by
`factory.decode(data, offset, attr_length)`. -/
def dispatchDecode (reg : Registry) (attrType : Nat) (data : List Nat)
    (offset length : Nat) : Except PyErr (Factory × AttrValue) := do
  let factory := (lookupFactory reg attrType).getD Factory.unknownAttribute
  let v ← factory.decode data offset length
  Except.ok (factory, v)

/-- The `while offset < end` loop of `StunMessage.decode_attributes`,
structurally recursive on a fuel argument.  Each iteration advances the
offset by at least 4, so any `fuel` with `endPos ≤ offset + 4 * fuel`
behaves like the unbounded loop (`decodeAttrsGo_fuel_irrel`); the
truncating base case is unreachable for such fuel. -/
def decodeAttrsGo (reg : Registry) (data : List Nat) (endPos : Nat) :
    Nat → Nat → Except PyErr (List StunAttr)
  | 0, _ => Except.ok []
  | fuel + 1, offset =>
    if offset < endPos then do
      let tl ← unpack2H data offset
      let fv ← dispatchDecode reg tl.1 data (offset + ATTR_HEADER_SIZE) tl.2
      let rest ← decodeAttrsGo reg data endPos fuel
        (offset + ATTR_HEADER_SIZE + tl.2 + tl.2 % 4)
      Except.ok (⟨tl.1, tl.2, fv.1, fv.2⟩ :: rest)
    else Except.ok []

/-- `StunMessage.decode_attributes(data, offset, length)`: iterate the
attribute section `[offset, offset + length)`.  Fuel `length` is always
sufficient (`length ≤ 4 * length`), so the wrapper equals the unbounded
loop. -/
def decode_attributes (reg : Registry) (data : List Nat) (offset length : Nat) :
    Except PyErr (List StunAttr) :=
  decodeAttrsGo reg data (offset + length) length offset

/-- The decoded message value, a named-field record for the 6-tuple. -/
structure StunMessage where
  msg_method : Nat
  msg_class : Nat
  msg_length : Nat
  magic_cookie : Nat
  transaction_id : List Nat
  attributes : List StunAttr
deriving DecidableEq, Repr

/-- `StunMessage.decode(data, offset)`: assert STUN framing at `data[offset]`,
unpack the 20-byte header (at offset 0, exactly as the call
`struct.unpack_from(cls._HEADER_FORMAT, data)` in the source does,
which passes no offset), extract method and
class bit fields, then decode the attribute section starting at
`offset + 20`. -/
def StunMessage.decode (data : List Nat) (offset : Nat) :
    Except PyErr StunMessage := do
  let b ← match data.get? offset with
          | some b => Except.ok b
          | none => Except.error PyErr.indexError
  if b >>> 6 = FORMAT_STUN then do
    let hdr ← unpackHeader data
    let msg_type := hdr.1 &&& 0x3fff
    let msg_method := msg_type &&& 0xfeef
    let msg_class := (msg_type >>> 4) &&& 0x11
    let attributes ← decode_attributes initialRegistry data
      (offset + MSG_HEADER_SIZE) hdr.2.1
    Except.ok ⟨msg_method, msg_class, hdr.2.1, hdr.2.2.1, hdr.2.2.2, attributes⟩
  else Except.error PyErr.assertionError

/-- `StunMessage.__len__`: header size plus the declared `msg_length`. -/
def StunMessage.pyLen (m : StunMessage) : Nat :=
  MSG_HEADER_SIZE + m.msg_length

/-- Total wire footprint of a decoded attribute list: for each attribute,
its 4-byte TLV header, its declared value length, and the padding the loop
skipped (`attr_length % 4`). -/
def consumedLen (attrs : List StunAttr) : Nat :=
  attrs.foldr (fun a acc => ATTR_HEADER_SIZE + a.length + a.length % 4 + acc) 0

/-- The demonstration buffer at the bottom of message.py (108 bytes). -/
def msgData : List Nat :=
  [0x01, 0x01, 0x00, 0x58, 0x21, 0x12, 0xa4, 0x42, 0x7a, 0x2f, 0x2b, 0x50,
   0x4c, 0x6a, 0x74, 0x57, 0x52, 0x61, 0x6c, 0x56, 0x00, 0x20, 0x00, 0x08,
   0x00, 0x01, 0x91, 0x17, 0x0f, 0x01, 0xb0, 0x20, 0x00, 0x01, 0x00, 0x08,
   0x00, 0x01, 0xb0, 0x05, 0x2e, 0x13, 0x14, 0x62, 0x80, 0x2b, 0x00, 0x08,
   0x00, 0x01, 0x0d, 0x96, 0x0a, 0xf0, 0xd7, 0xb4, 0x80, 0x2c, 0x00, 0x08,
   0x00, 0x01, 0x0d, 0x97, 0x0a, 0xf0, 0xd7, 0xb4, 0x80, 0x22, 0x00, 0x1a,
   0x43, 0x69, 0x74, 0x72, 0x69, 0x78, 0x2d, 0x31, 0x2e, 0x38, 0x2e, 0x37,
   0x2e, 0x30, 0x20, 0x27, 0x42, 0x6c, 0x61, 0x63, 0x6b, 0x20, 0x44, 0x6f,
   0x77, 0x27, 0x42, 0x4e, 0x80, 0x28, 0x00, 0x04, 0xae, 0xa9, 0x05, 0x59]

lemma getD_eq_getElem_of_lt (l : List Nat) (i : Nat) (h : i < l.length) :
    l.getD i 0 = l[i] := by
  simp [List.getD_eq_getElem?_getD, List.getElem?_eq_getElem h]

lemma shl8_xor_eq_or (a b : Nat) (hb : b < 256) :
    a <<< 8 ^^^ b = a <<< 8 ||| b := by
  apply Nat.eq_of_testBit_eq
  intro i
  rcases Nat.lt_or_ge i 8 with h | h
  · have hni : ¬ 8 ≤ i := by omega
    have h1 : (a <<< 8).testBit i = false := by
      simp [Nat.testBit_shiftLeft, hni]
    simp [h1]
  · have h28 : (256 : Nat) ≤ 2 ^ i :=
      calc (256 : Nat) = 2 ^ 8 := by norm_num
        _ ≤ 2 ^ i := Nat.pow_le_pow_right (by norm_num) h
    have h2 : b.testBit i = false :=
      Nat.testBit_lt_two_pow (lt_of_lt_of_le hb h28)
    simp [h2]

lemma lookupFactory_none_not_mem {reg : Registry} {t : Nat}
    (h : lookupFactory reg t = none) : t ∉ reg.map Prod.fst := by
  induction reg with
  | nil => simp
  | cons p rest ih =>
    obtain ⟨k, f⟩ := p
    by_cases hk : k = t
    · simp [lookupFactory, hk] at h
    · simp only [lookupFactory, if_neg hk] at h
      simp [ih h, Ne.symm hk]

/-- Claim C5: an attribute type code with no registered codec never aborts
decoding: the registry resolves to the fallback `UnknownAttribute` class and
the value decodes to the raw byte slice of the buffer. -/
theorem c5_unknown_type_decodes_raw (t : Nat) (data : List Nat) (off len : Nat)
    (h : lookupFactory initialRegistry t = none) :
    dispatchDecode initialRegistry t data off len =
      Except.ok (Factory.unknownAttribute, AttrValue.raw (pySliceN data off len)) := by
  simp [dispatchDecode, h, Factory.decode, stunAttributeDecode, Bind.bind, Except.bind]

/-- Witness for C5 at the unregistered type code 0x0002. -/
theorem c5_unknown_type_decodes_raw_witness :
    dispatchDecode initialRegistry 0x0002 [1, 2, 3] 1 2 =
      Except.ok (Factory.unknownAttribute, AttrValue.raw (pySliceN [1, 2, 3] 1 2)) :=
  c5_unknown_type_decodes_raw 0x0002 [1, 2, 3] 1 2 rfl

/-- Claim C6: registering a codec for an already-bound type code fails with
the duplicate-registration assertion at registration time; registering a
fresh type code succeeds, appending the binding, and preserves the at most
one codec per type code invariant. -/
theorem c6_registration :
    (∀ (reg : Registry) (t : Nat) (f g : Factory),
        lookupFactory reg t = some f →
        add_attribute_factory reg t g = Except.error PyErr.assertionError) ∧
    (∀ (reg : Registry) (t : Nat) (g : Factory),
        lookupFactory reg t = none →
        add_attribute_factory reg t g = Except.ok (reg ++ [(t, g)]) ∧
        (registryWF reg → registryWF (reg ++ [(t, g)]))) := by
  constructor
  · intro reg t f g h
    simp [add_attribute_factory, h]
  · intro reg t g h
    refine ⟨by simp [add_attribute_factory, h], fun hwf => ?_⟩
    have hnm := lookupFactory_none_not_mem h
    simp only [registryWF, List.map_append] at *
    simp [List.nodup_append, hwf, hnm]

/-- Witness for C6: duplicate registration of 0x0020 fails; registering
0x0020 into an empty registry succeeds and is well-formed. -/
theorem c6_registration_witness :
    add_attribute_factory initialRegistry 0x0020 Factory.software =
      Except.error PyErr.assertionError ∧
    add_attribute_factory [] 0x0020 Factory.xorMappedAddress =
      Except.ok [(0x0020, Factory.xorMappedAddress)] ∧
    registryWF [(0x0020, Factory.xorMappedAddress)] :=
  ⟨c6_registration.1 initialRegistry 0x0020 Factory.xorMappedAddress Factory.software rfl,
   (c6_registration.2 [] 0x0020 Factory.xorMappedAddress rfl).1,
   (c6_registration.2 [] 0x0020 Factory.xorMappedAddress rfl).2 (by simp [registryWF])⟩

/-- Claim C1 (failing input): the loop advances by `4 + length + (length mod 4)`,
not `4 + length + ((4 - length mod 4) mod 4)`.  After an attribute of declared
length 1 the code reads the next attribute header 6 bytes later (at offset 6),
where the bytes `0x11 0x11` lie, instead of 8 bytes later where `0x22 0x22`
lies; the decoded second attribute type is therefore 0x1111. -/
theorem c1_padding_advance_eval :
    decode_attributes initialRegistry
        [0x00, 0x00, 0x00, 0x01, 0xAA, 0x00, 0x11, 0x11, 0x22, 0x22, 0x00, 0x00] 0 12 =
      Except.ok
        [⟨0x0000, 1, Factory.unknownAttribute, AttrValue.raw [0xAA]⟩,
         ⟨0x1111, 0x2222, Factory.unknownAttribute, AttrValue.raw [0x00, 0x00]⟩] := rfl

/-- Claim C3 (counterexample): a declared body length of 2 ends inside the
first attribute header, yet decoding succeeds — the attribute whose header
and value extend past the declared body end is decoded from the underlying
buffer instead of making the decode fail. -/
theorem c3_overshoot_tolerated_counterexample :
    decode_attributes initialRegistry [0x00, 0x00, 0x00, 0x00] 0 2 =
      Except.ok [⟨0x0000, 0, Factory.unknownAttribute, AttrValue.raw []⟩] := rfl

/-- Claim C4 (failing input): for an ERROR-CODE value of declared length 5
with bytes `00 00 04 01 61`, the decoded reason phrase is all five value
bytes — the 4-byte reserved/class/number prefix included — not just the
single byte `0x61` that follows the prefix. -/
theorem c4_error_reason_includes_prefix_eval :
    Factory.errorCode.decode [0x00, 0x00, 0x04, 0x01, 0x61] 0 5 =
      Except.ok (AttrValue.errorCodeValue 4 1 [0x00, 0x00, 0x04, 0x01, 0x61]) := rfl

/-- Claim C7: decoding the worked-example buffer yields method Binding,
class Success Response, declared length 88, the magic cookie, and the
transaction id `7a2f2b504c6a745752616c56`. -/
theorem c7_worked_example_header :
    (StunMessage.decode msgData 0).toOption.map
        (fun m => (m.msg_method, m.msg_class, m.msg_length, m.magic_cookie,
                   m.transaction_id)) =
      some (METHOD_BINDING, CLASS_RESPONSE_SUCCESS, 88, MAGIC_COOKIE,
            [0x7a, 0x2f, 0x2b, 0x50, 0x4c, 0x6a, 0x74, 0x57, 0x52, 0x61, 0x6c, 0x56]) := rfl

/-- Claim C8 (failing input): decoding at offset 4 of a buffer holding four
zero bytes followed by the worked-example message parses the header fields
from absolute offset 0, not from offset 4: the magic-cookie field comes out
as 0x01010058 (the shifted garbage at bytes 4..8) and method and class are 0,
instead of the values of the message that starts at offset 4. -/
theorem c8_header_parsed_at_zero_eval :
    (StunMessage.decode (0 :: 0 :: 0 :: 0 :: msgData) 4).toOption.map
        (fun m => (m.msg_method, m.msg_class, m.msg_length, m.magic_cookie)) =
      some (0, 0, 0, 0x01010058) := rfl

/-- Claim C9 (counterexample): a MAPPED-ADDRESS value declaring family 0x03
does not fail with a typed unsupported-address-family error — it decodes
successfully to `(3, 80, [1, 2, 3, 4])`. -/
theorem c9_family_unchecked_counterexample :
    Factory.mappedAddress.decode [0x00, 0x03, 0x00, 0x50, 1, 2, 3, 4] 0 8 =
      Except.ok (AttrValue.addr 3 80 [1, 2, 3, 4]) := rfl

lemma decodeAttrsGo_fuel_irrel (reg : Registry) (data : List Nat) (endPos : Nat) :
    ∀ fuel fuel' offset, endPos ≤ offset + 4 * fuel → endPos ≤ offset + 4 * fuel' →
      decodeAttrsGo reg data endPos fuel offset = decodeAttrsGo reg data endPos fuel' offset := by
  intro fuel
  induction fuel with
  | zero =>
    intro fuel' offset hf hf'
    have hge : ¬ offset < endPos := by omega
    cases fuel' with
    | zero => rfl
    | succ m => simp [decodeAttrsGo, hge]
  | succ n ih =>
    intro fuel' offset hf hf'
    cases fuel' with
    | zero =>
      have hge : ¬ offset < endPos := by omega
      simp [decodeAttrsGo, hge]
    | succ m =>
      simp only [decodeAttrsGo]
      by_cases hlt : offset < endPos
      · simp only [if_pos hlt]
        cases hu : unpack2H data offset with
        | error e => rfl
        | ok tl =>
          cases hd : dispatchDecode reg tl.1 data (offset + ATTR_HEADER_SIZE) tl.2 with
          | error e => simp [Bind.bind, Except.bind, hd]
          | ok fv =>
            have hrec := ih m (offset + ATTR_HEADER_SIZE + tl.2 + tl.2 % 4)
              (by simp only [ATTR_HEADER_SIZE]; omega)
              (by simp only [ATTR_HEADER_SIZE]; omega)
            simp [Bind.bind, Except.bind, hd, hrec]
      · simp [hlt]

lemma decodeAttrsGo_covers (reg : Registry) (data : List Nat) (endPos : Nat) :
    ∀ fuel offset attrs, endPos ≤ offset + 4 * fuel →
      decodeAttrsGo reg data endPos fuel offset = Except.ok attrs →
      endPos ≤ offset + consumedLen attrs := by
  intro fuel
  induction fuel with
  | zero =>
    intro offset attrs hf h
    simp only [decodeAttrsGo] at h
    injection h with h
    subst h
    simpa [consumedLen] using hf
  | succ n ih =>
    intro offset attrs hf h
    simp only [decodeAttrsGo] at h
    by_cases hlt : offset < endPos
    · simp only [if_pos hlt] at h
      cases hu : unpack2H data offset with
      | error e => simp [hu, Bind.bind, Except.bind] at h
      | ok tl =>
        simp only [hu, Bind.bind, Except.bind] at h
        cases hd : dispatchDecode reg tl.1 data (offset + ATTR_HEADER_SIZE) tl.2 with
        | error e => simp [hd] at h
        | ok fv =>
          simp only [hd] at h
          cases hr : decodeAttrsGo reg data endPos n
              (offset + ATTR_HEADER_SIZE + tl.2 + tl.2 % 4) with
          | error e => simp [hr] at h
          | ok rest =>
            simp only [hr] at h
            injection h with h
            subst h
            have := ih (offset + ATTR_HEADER_SIZE + tl.2 + tl.2 % 4) rest
              (by simp only [ATTR_HEADER_SIZE]; omega) hr
            simp only [consumedLen, List.foldr_cons] at *
            omega
    · simp only [if_neg hlt] at h
      injection h with h
      subst h
      simp only [consumedLen, List.foldr_nil]
      omega

/-- Claim C3 (amended): the attribute loop stops at the first offset at or
past the declared body end, so a successful decode consumes at least — not
exactly — the declared length: attributes whose header or padded value
extends past the declared body end are decoded from the underlying buffer
(overshoot is tolerated, as the counterexample shows), and only reads past
the end of the actual buffer fail. -/
theorem c3_consumes_at_least (reg : Registry) (data : List Nat)
    (offset length : Nat) (attrs : List StunAttr)
    (h : decode_attributes reg data offset length = Except.ok attrs) :
    length ≤ consumedLen attrs := by
  simp only [decode_attributes] at h
  have := decodeAttrsGo_covers reg data (offset + length) length offset attrs
    (by omega) h
  omega

/-- Witness for C3 (amended) on a single zero-length attribute. -/
theorem c3_consumes_at_least_witness :
    4 ≤ consumedLen [⟨0x0000, 0, Factory.unknownAttribute, AttrValue.raw []⟩] :=
  c3_consumes_at_least initialRegistry [0x00, 0x00, 0x00, 0x00] 0 4
    [⟨0x0000, 0, Factory.unknownAttribute, AttrValue.raw []⟩] rfl

/-- Claim C10: a successfully decoded message reports total length
`__len__` equal to the header size plus the declared msg-length field read
from the wire header (the big-endian 16-bit field at buffer offset 2), not
the number of attribute bytes consumed or the buffer size. -/
theorem c10_len_is_header_plus_declared (data : List Nat) (off : Nat)
    (m : StunMessage) (h : StunMessage.decode data off = Except.ok m) :
    m.pyLen = MSG_HEADER_SIZE + u16 data 2 := by
  simp only [StunMessage.decode, Bind.bind, Except.bind, List.get?_eq_getElem?] at h
  cases hb : data[off]? with
  | none => simp [hb] at h
  | some b =>
    simp only [hb] at h
    by_cases hfmt : b >>> 6 = FORMAT_STUN
    · simp only [if_pos hfmt, unpackHeader] at h
      by_cases hlen : 20 ≤ data.length
      · simp only [if_pos hlen] at h
        cases hA : decode_attributes initialRegistry data (off + MSG_HEADER_SIZE)
            (u16 data 2) with
        | error e => simp [hA] at h
        | ok attrs =>
          simp only [hA] at h
          injection h with h
          subst h
          simp [StunMessage.pyLen]
      · simp [if_neg hlen] at h
    · simp [if_neg hfmt] at h

/-- Witness for C10 on a minimal 20-byte Binding request with zero
declared length. -/
theorem c10_len_is_header_plus_declared_witness :
    StunMessage.pyLen
        ⟨1, 0, 0, 0x2112A442, [1, 2, 3, 4, 5, 6, 7, 8, 9, 10, 11, 12], []⟩ =
      MSG_HEADER_SIZE +
        u16 [0x00, 0x01, 0x00, 0x00, 0x21, 0x12, 0xA4, 0x42,
             1, 2, 3, 4, 5, 6, 7, 8, 9, 10, 11, 12] 2 :=
  c10_len_is_header_plus_declared
    [0x00, 0x01, 0x00, 0x00, 0x21, 0x12, 0xA4, 0x42,
     1, 2, 3, 4, 5, 6, 7, 8, 9, 10, 11, 12] 0
    ⟨1, 0, 0, 0x2112A442, [1, 2, 3, 4, 5, 6, 7, 8, 9, 10, 11, 12], []⟩ rfl

/-- Claim C9 (amended): address attributes do not reject unsupported
families with a typed error.  For a family byte that is neither IPv4 (0x01)
nor IPv6 (0x02), the plain MAPPED-ADDRESS layout decoder succeeds, returning
the raw family value unvalidated, while the XOR layout decoder fails with an
unbound-local `NameError` — not an UnsupportedAddressFamilyError. -/
theorem c9_family_behaviour (data : List Nat) (off len fam : Nat)
    (hfam : data[off + 1]? = some fam)
    (h1 : fam ≠ FAMILY_IPv4) (h2 : fam ≠ FAMILY_IPv6)
    (hbound : off + 4 ≤ data.length)
    (hlen4 : 4 ≤ len)
    (hmagic : 20 ≤ data.length) :
    Factory.mappedAddress.decode data off len =
      Except.ok (AttrValue.addr fam (u16 data (off + 2))
        (pySliceN data (off + 4) (len - 4))) ∧
    Factory.xorMappedAddress.decode data off len = Except.error PyErr.nameError := by
  have hg : data[off + 1]?.getD 0 = fam := by
    simp [hfam]
  have hne1 : ¬ ((len : Int) - 4 = -1) := by omega
  have hne2 : ¬ ((len : Int) - 4 < 0) := by omega
  have htn : ((len : Int) - 4).toNat = len - 4 := by omega
  constructor
  · simp [Factory.decode, mappedAddressDecode, unpackXBH, hbound, hg,
      pyBufferI, hne1, hne2, htn, Bind.bind, Except.bind]
  · have h16 : 4 + 16 ≤ data.length := by omega
    simp [Factory.decode, xorAddressDecode, unpackXBH, hbound, hg, h1, h2,
      unpack16s, h16, Bind.bind, Except.bind]

/-- Witness for C9 (amended) at family byte 0x03. -/
theorem c9_family_behaviour_witness :
    Factory.mappedAddress.decode
        [0x00, 0x03, 0x00, 0x50, 1, 2, 3, 4, 0, 0, 0, 0, 0, 0, 0, 0, 0, 0, 0, 0] 0 8 =
      Except.ok (AttrValue.addr 3
        (u16 [0x00, 0x03, 0x00, 0x50, 1, 2, 3, 4, 0, 0, 0, 0, 0, 0, 0, 0, 0, 0, 0, 0] 2)
        (pySliceN [0x00, 0x03, 0x00, 0x50, 1, 2, 3, 4, 0, 0, 0, 0, 0, 0, 0, 0, 0, 0, 0, 0] 4 4)) ∧
    Factory.xorMappedAddress.decode
        [0x00, 0x03, 0x00, 0x50, 1, 2, 3, 4, 0, 0, 0, 0, 0, 0, 0, 0, 0, 0, 0, 0] 0 8 =
      Except.error PyErr.nameError :=
  c9_family_behaviour
    [0x00, 0x03, 0x00, 0x50, 1, 2, 3, 4, 0, 0, 0, 0, 0, 0, 0, 0, 0, 0, 0, 0] 0 8 3
    rfl (by decide) (by decide) (by decide) (by decide) (by decide)

lemma pySliceN_getD (data : List Nat) (off n i : Nat) (hi : i < n) :
    (pySliceN data off n).getD i 0 = data.getD (off + i) 0 := by
  simp [pySliceN, List.getD_eq_getElem?_getD, List.getElem?_take_of_lt hi,
    List.getElem?_drop]

lemma getD_lt_256 (data : List Nat) (i : Nat) (hbytes : ∀ b ∈ data, b < 256)
    (hi : i < data.length) : data.getD i 0 < 256 := by
  rw [getD_eq_getElem_of_lt data i hi]
  exact hbytes _ (List.getElem_mem hi)

lemma zipWith_xor_slices_eq_ofFn (data : List Nat) (off n : Nat)
    (hn : n ≤ 16) (hb : off + n ≤ data.length) (hm : 4 + 16 ≤ data.length) :
    List.zipWith (fun a b => a ^^^ b) (pySliceN data off n) (pySliceN data 4 16) =
      List.ofFn (fun i : Fin n => data.getD (off + i.val) 0 ^^^ data.getD (4 + i.val) 0) := by
  apply List.ext_getElem
  · simp only [List.length_zipWith, pySliceN, List.length_take, List.length_drop,
      List.length_ofFn]
    omega
  · intro i h1 h2
    have hi : i < n := by
      simp only [List.length_zipWith, pySliceN, List.length_take, List.length_drop] at h1
      omega
    rw [List.getElem_zipWith, List.getElem_ofFn]
    simp only [pySliceN, List.getElem_take, List.getElem_drop]
    rw [getD_eq_getElem_of_lt data (off + i) (by omega),
      getD_eq_getElem_of_lt data (4 + i) (by omega)]

/-- Claim C2: for a buffer whose XOR-MAPPED-ADDRESS (or XOR-PEER-ADDRESS /
XOR-RELAYED-ADDRESS) attribute value declares family IPv4 or IPv6, the
decoded value is `(family, realPort, realAddress)` with `magic` the 16 raw
bytes at buffer offset 4: `realPort = xorPort XOR (magic[0] <<< 8 ||| magic[1])`
and `realAddress[i] = xorAddress[i] XOR magic[i]` for each of the `n`
address bytes, where `n` is 4 for IPv4 and 16 for IPv6 (so IPv4 uses only
the first 4 magic bytes). -/
theorem c2_xor_deobfuscation (f : Factory) (data : List Nat)
    (off len fam n : Nat)
    (hf : f = Factory.xorMappedAddress ∨ f = Factory.xorPeerAddress ∨
          f = Factory.xorRelayedAddress)
    (hbytes : ∀ b ∈ data, b < 256)
    (hgfam : data.getD (off + 1) 0 = fam)
    (hfam14 : fam = FAMILY_IPv4 ∨ fam = FAMILY_IPv6)
    (hn : n = if fam = FAMILY_IPv4 then 4 else 16)
    (hmagic : 20 ≤ data.length)
    (haddr : off + 4 + n ≤ data.length) :
    f.decode data off len =
      Except.ok (AttrValue.addr fam
        (u16 data (off + 2) ^^^ (data.getD 4 0 <<< 8 ||| data.getD 5 0))
        (List.ofFn (fun i : Fin n =>
          data.getD (off + 4 + i.val) 0 ^^^ data.getD (4 + i.val) 0))) := by
  have hdec : f.decode data off len = xorAddressDecode data off len := by
    rcases hf with h | h | h <;> subst h <;> rfl
  rw [hdec]
  have hb4 : off + 4 ≤ data.length := by omega
  have h16 : 4 + 16 ≤ data.length := by omega
  have hm0 : (pySliceN data 4 16).getD 0 0 = data.getD 4 0 := by
    simpa using pySliceN_getD data 4 16 0 (by norm_num)
  have hm1 : (pySliceN data 4 16).getD 1 0 = data.getD 5 0 := by
    simpa using pySliceN_getD data 4 16 1 (by norm_num)
  have hb5 : data.getD 5 0 < 256 := getD_lt_256 data 5 hbytes (by omega)
  have hport : u16 data (off + 2) ^^^ (pySliceN data 4 16).getD 0 0 <<< 8 ^^^
      (pySliceN data 4 16).getD 1 0 =
      u16 data (off + 2) ^^^ (data.getD 4 0 <<< 8 ||| data.getD 5 0) := by
    rw [hm0, hm1, Nat.xor_assoc, shl8_xor_eq_or _ _ hb5]
  rcases hfam14 with h | h
  · rw [if_pos h] at hn
    subst hn
    have hzip := zipWith_xor_slices_eq_ofFn data (off + 4) 4 (by norm_num) haddr h16
    simp only [xorAddressDecode, unpackXBH, if_pos hb4, unpack16s, if_pos h16,
      Bind.bind, Except.bind, hgfam, h, if_pos rfl]
    simp only [if_true]
    rw [hzip, hport]
  · have hne : fam ≠ FAMILY_IPv4 := by rw [h]; decide
    rw [if_neg hne] at hn
    subst hn
    have hzip := zipWith_xor_slices_eq_ofFn data (off + 4) 16 (by norm_num) haddr h16
    simp only [xorAddressDecode, unpackXBH, if_pos hb4, unpack16s, if_pos h16,
      Bind.bind, Except.bind, hgfam, if_neg hne, h, if_pos rfl]
    have hne2 : ¬ (FAMILY_IPv6 = FAMILY_IPv4) := by decide
    simp only [if_neg hne2, if_true]
    rw [hzip, hport]

/-- Witness for C2 at the XOR-MAPPED-ADDRESS attribute (value offset 24,
family IPv4) of the worked-example buffer. -/
theorem c2_xor_deobfuscation_witness :
    Factory.xorMappedAddress.decode msgData 24 8 =
      Except.ok (AttrValue.addr FAMILY_IPv4
        (u16 msgData (24 + 2) ^^^ (msgData.getD 4 0 <<< 8 ||| msgData.getD 5 0))
        (List.ofFn (fun i : Fin 4 =>
          msgData.getD (24 + 4 + i.val) 0 ^^^ msgData.getD (4 + i.val) 0))) :=
  c2_xor_deobfuscation Factory.xorMappedAddress msgData 24 8 FAMILY_IPv4 4
    (Or.inl rfl) (by decide) rfl (Or.inl rfl) rfl (by decide) (by decide)
